import Mathlib

/-!
Verification development for the raw race-record extraction pipeline of the
`predict_boat` repository (`extract_records_data.py` and the `db/` modules).

Modelling conventions:
* A Python string is a `List Char` (`Line`), one entry per code point, as
  produced by `str` indexing/slicing in Python.
* `s[a:b]` is `pySlice`, `s[a:]` with a possibly negative start is
  `pySliceFrom`, `list[i]` with Python's negative-index wrap is `pyIndex`.
* `int(x)` is `pyInt : Line → Option Int` (strip whitespace, optional sign,
  ASCII decimal digits); `float(x)` is `pyFloatTok`, which keeps the surface
  token as the value since the claims only depend on parse success/failure.
* Fallible Python code is embedded in `Except PyErr`; each raised exception
  class is one `PyErr` constructor.
* ORM sessions are embedded as explicit in-memory stores (lists of rows with
  auto-increment surrogate ids).  Python's module import machinery is out of
  scope, but attribute existence is modelled: a call to a function name that
  the target module does not define is an `attributeError`.
-/

/-- A Python string, one entry per code point. -/
abbrev Line := List Char

/-- Python `s[a:b]` for non-negative bounds. -/
def pySlice (s : Line) (a b : Nat) : Line := (s.drop a).take (b - a)

/-- Python `s[a:]` where `a` may be negative (counts from the end, clamped). -/
def pySliceFrom (s : Line) (a : Int) : Line :=
  if a < 0 then s.drop (s.length - (-a).toNat) else s.drop a.toNat

/-- Python `l[i]` with negative-index wrap; out of range (in either
direction) raises `IndexError`, modelled as `none`. -/
def pyIndex (l : List Line) (i : Int) : Option Line :=
  if i < 0 then
    if (-i).toNat ≤ l.length then l.get? (l.length - (-i).toNat) else none
  else l.get? i.toNat

/-- Characters stripped by Python's `int()`/`float()`/`str.strip()`. -/
def isPyWhitespace (c : Char) : Bool :=
  c = ' ' || c = '\t' || c = '\n' || c = '\r' || c = '\x0b' || c = '\x0c' || c = '　'

/-- Strip leading and trailing Python whitespace. -/
def pyStrip (s : Line) : Line :=
  ((s.dropWhile isPyWhitespace).reverse.dropWhile isPyWhitespace).reverse

/-- Decimal value of an ASCII digit. -/
def digitVal (c : Char) : Option Nat :=
  if '0' ≤ c ∧ c ≤ '9' then some (c.toNat - '0'.toNat) else none

/-- Value of a nonempty all-digit token. -/
def digitsVal : Line → Option Nat
  | [] => none
  | [c] => digitVal c
  | c :: rest => do
      let d ← digitVal c
      let r ← digitsVal rest
      pure (d * 10 ^ rest.length + r)

/-- Model of Python `int(s)`: strip whitespace, optional single sign, then a
nonempty run of decimal digits; anything else raises `ValueError` (`none`).
Restricted to ASCII digits, which is what the fixed-column dumps contain. -/
def pyInt (s : Line) : Option Int :=
  match pyStrip s with
  | '+' :: rest => (digitsVal rest).map Int.ofNat
  | '-' :: rest => (digitsVal rest).map (fun n => -(Int.ofNat n))
  | rest => (digitsVal rest).map Int.ofNat

/-- Does a token (already stripped) have Python `float` literal shape
`[sign] (digits [. [digits]] | . digits)`? Exponent/inf/nan forms do not
occur in the fixed-column data and are not modelled. -/
def floatBodyShape (s : Line) : Bool :=
  let digits := fun (l : Line) => l.all fun c => (digitVal c).isSome
  match s.splitOn '.' with
  | [intPart] => intPart ≠ [] && digits intPart
  | [intPart, fracPart] =>
      (intPart ≠ [] || fracPart ≠ []) && digits intPart && digits fracPart
  | _ => false

/-- Model of Python `float(s)`: on success the value is represented by its
stripped surface token (the claims only depend on success vs `ValueError`). -/
def pyFloatTok (s : Line) : Option Line :=
  let t := pyStrip s
  let body := match t with
    | '+' :: rest => rest
    | '-' :: rest => rest
    | rest => rest
  if floatBodyShape body then some t else none

/-- Python `str.find`: index of the first occurrence of `pat`, or `-1`. -/
def pyFind (s pat : Line) : Int :=
  match (List.range (s.length + 1)).find? (fun i => pat.isPrefixOf (s.drop i)) with
  | some i => Int.ofNat i
  | none => -1

/-- Python `pat in s` for strings: substring containment. -/
def strContains (s pat : Line) : Bool :=
  (List.range (s.length + 1)).any (fun i => pat.isPrefixOf (s.drop i))

/-- `extract_records_data.remove_all_blank`: three successive `str.replace`
calls deleting `" "`, `"　"` and `"　"` (the last two are the same
character, so the third replace is a no-op). -/
def remove_all_blank (text : Line) : Line :=
  let t₁ := text.filter (fun c => c ≠ ' ')
  let t₂ := t₁.filter (fun c => c ≠ '　')
  t₂.filter (fun c => c ≠ '　')

/-- Exception classes raised by the embedded code. -/
inductive PyErr where
  /-- `int()`/`float()`/constructor argument failure. -/
  | valueError
  /-- a local variable read before any assignment. -/
  | nameError
  /-- an attribute (here: a module-level function) that does not exist. -/
  | attributeError
  /-- a function called with arguments its signature rejects. -/
  | typeError
  /-- a dict lookup with a missing key (`branch_dict[stadium_name]`). -/
  | keyError
  /-- `Query.one_or_none` with more than one matching row. -/
  | multipleResults
  /-- list index out of range. -/
  | indexError
deriving DecidableEq, Repr

instance {ε α : Type} [DecidableEq ε] [DecidableEq α] :
    DecidableEq (Except ε α) := fun x y =>
  match x, y with
  | .error a, .error b =>
      if h : a = b then .isTrue (by rw [h])
      else .isFalse (fun hh => h (by injection hh))
  | .ok a, .ok b =>
      if h : a = b then .isTrue (by rw [h])
      else .isFalse (fun hh => h (by injection hh))
  | .error _, .ok _ => .isFalse (fun hh => by injection hh)
  | .ok _, .error _ => .isFalse (fun hh => by injection hh)

/-! ## Reference entities and their stores (the `db/` modules)

Each SQLAlchemy table is an in-memory list of rows; `autoincrement` surrogate
ids are assigned as the current list length on insert.  `one_or_none` raises
`MultipleResultsFound` when two rows match; `first` returns the first match
or `None`. -/

/-- `db/stadium.py` `Stadium` row.  The constructor also derives
`branch_name`, `motor_change_timing` and `boat_change_timing` from three
dictionaries all keyed by the same 24 stadium names; those derived values are
read by nothing the claims touch and are not carried, but the `KeyError`
raised by `branch_dict[stadium_name]` for an unknown name is modelled. -/
structure Stadium where
  id : Int
  stadium_name : Line
deriving DecidableEq, Repr

/-- The key set of `db/stadium.py`'s `branch_dict` (= the key sets of
`change_boat_timing_dict` and `change_motor_timing_dict`). -/
def branch_dict_keys : List Line :=
  ["桐生".data, "戸田".data, "江戸川".data, "平和島".data, "多摩川".data,
   "浜名湖".data, "蒲郡".data, "常滑".data, "津".data, "三国".data,
   "琵琶湖".data, "住之江".data, "尼崎".data, "鳴門".data, "丸亀".data,
   "児島".data, "宮島".data, "徳山".data, "下関".data, "若松".data,
   "芦屋".data, "福岡".data, "唐津".data, "大村".data]

/-- `Stadium.__init__`: raises `KeyError` when the name is not a
`branch_dict` key. -/
def Stadium.mk? (id : Int) (name : Line) : Except PyErr Stadium :=
  if name ∈ branch_dict_keys then .ok ⟨id, name⟩ else .error .keyError

/-- `db/stadium.py` `get_or_create`: query by primary key `id`
(`one_or_none`), create-and-commit when absent. -/
def stadium_get_or_create (store : List Stadium) (stadium_id : Int)
    (stadium_name : Line) : Except PyErr (List Stadium × Stadium) :=
  match store.filter (fun s => s.id = stadium_id) with
  | [] => do
      let s ← Stadium.mk? stadium_id stadium_name
      .ok (store ++ [s], s)
  | [s] => .ok (store, s)
  | _ => .error .multipleResults

/-- `db/weather.py` `Weather` row. -/
structure Weather where
  id : Nat
  weather_name : Line
deriving DecidableEq, Repr

/-- `Query.filter_by` accepts keyword arguments only; calling it with a
positional argument raises `TypeError` before the query runs. -/
def query_filter_by_positional {α : Type} : Except PyErr α := .error .typeError

/-- `db/weather.py` `get_or_create_weather`: the query is written
`session.query(Weather).filter_by(weather_name).one_or_none()`, passing
`weather_name` to `filter_by` positionally, so every call raises
`TypeError`; the create branch below it is dead code. -/
def get_or_create_weather (store : List Weather) (weather_name : Line) :
    Except PyErr (List Weather × Weather) := do
  let existing ← (query_filter_by_positional : Except PyErr (Option Weather))
  match existing with
  | some w => .ok (store, w)
  | none =>
      let w : Weather := ⟨store.length, weather_name⟩
      .ok (store ++ [w], w)

/-- `db/wind_direction.py` `WindDirection` row. -/
structure WindDirection where
  id : Nat
  wind_direction_name : Line
deriving DecidableEq, Repr

/-- `db/wind_direction.py` `get_or_create_wind_direction`: same positional
`filter_by(wind_direction_name)` slip as the weather module — every call
raises `TypeError`. -/
def get_or_create_wind_direction (store : List WindDirection)
    (wind_direction_name : Line) :
    Except PyErr (List WindDirection × WindDirection) := do
  let existing ← (query_filter_by_positional : Except PyErr (Option WindDirection))
  match existing with
  | some w => .ok (store, w)
  | none =>
      let w : WindDirection := ⟨store.length, wind_direction_name⟩
      .ok (store ++ [w], w)

/-- `db/decisive_factor.py` `DecisiveFactor` row. -/
structure DecisiveFactor where
  id : Nat
  decisive_factor_name : Line
deriving DecidableEq, Repr

/-- `db/decisive_factor.py` `get_or_create`:
`filter_by(decisive_factor_name=...).one_or_none()`, create when absent. -/
def decisive_factor_get_or_create (store : List DecisiveFactor) (name : Line) :
    Except PyErr (List DecisiveFactor × DecisiveFactor) :=
  match store.filter (fun d => d.decisive_factor_name = name) with
  | [] =>
      let d : DecisiveFactor := ⟨store.length, name⟩
      .ok (store ++ [d], d)
  | [d] => .ok (store, d)
  | _ => .error .multipleResults

/-- `db/special_rule.py` `SpecialRule` row; the parser passes `None` as the
name for races without a special rule, hence the `Option` key. -/
structure SpecialRule where
  id : Nat
  special_rule_name : Option Line
deriving DecidableEq, Repr

/-- `db/special_rule.py` `get_or_create`. -/
def special_rule_get_or_create (store : List SpecialRule) (name : Option Line) :
    Except PyErr (List SpecialRule × SpecialRule) :=
  match store.filter (fun d => d.special_rule_name = name) with
  | [] =>
      let d : SpecialRule := ⟨store.length, name⟩
      .ok (store ++ [d], d)
  | [d] => .ok (store, d)
  | _ => .error .multipleResults

/-- `db/player.py` `Player` row (only the fields the result pipeline reads). -/
structure Player where
  id : Int
  name : Line
deriving DecidableEq, Repr

/-- Call site `db.player.get(session, id=int(...))`
(`extract_records_data.py:123`): `db/player.py` defines no function named
`get` (and no other module does), so the attribute access raises
`AttributeError` on every boat-result line — Python resolves the callable
before evaluating its arguments, so the `int(...)` argument expression never
runs. -/
def db_player_get_callsite (_store : List Player) :
    Except PyErr (Option Player) := .error .attributeError

/-- `db/motor.py` `Motor` row: number plus the owning stadium (the ORM
relationship value the queries filter on). -/
structure Motor where
  id : Nat
  motor_number : Int
  stadium : Stadium
deriving DecidableEq, Repr

/-- `db/motor.py` `get_or_create`:
`filter_by(motor_number=..., stadium=...).first()`; a fresh row is created
and committed when `latest_top2finish_rate == 0` or no row matched. -/
def motor_get_or_create (store : List Motor) (motor_number : Int)
    (stadium : Stadium) (latest_top2finish_rate : ℚ) : List Motor × Motor :=
  let motor := (store.filter
    (fun m => m.motor_number = motor_number ∧ m.stadium = stadium)).head?
  if latest_top2finish_rate = 0 ∨ motor = none then
    let m : Motor := ⟨store.length, motor_number, stadium⟩
    (store ++ [m], m)
  else
    (store, motor.getD ⟨store.length, motor_number, stadium⟩)

/-- `db/motor.py` `get`: pure lookup, `first()` or `None`; the create branch
is commented out in the source. -/
def motor_get (store : List Motor) (motor_number : Int) (stadium : Stadium) :
    Option Motor :=
  (store.filter (fun m => m.motor_number = motor_number ∧ m.stadium = stadium)).head?

/-- `db/boat.py` `Boat` row. -/
structure Boat where
  id : Nat
  boat_number : Int
  stadium : Stadium
deriving DecidableEq, Repr

/-- `db/boat.py` `get_or_create`: same shape as the motor resolver. -/
def boat_get_or_create (store : List Boat) (boat_number : Int)
    (stadium : Stadium) (latest_top2finish_rate : ℚ) : List Boat × Boat :=
  let boat := (store.filter
    (fun b => b.boat_number = boat_number ∧ b.stadium = stadium)).head?
  if latest_top2finish_rate = 0 ∨ boat = none then
    let b : Boat := ⟨store.length, boat_number, stadium⟩
    (store ++ [b], b)
  else
    (store, boat.getD ⟨store.length, boat_number, stadium⟩)

/-- `db/boat.py` `get`: pure lookup, `first()` or `None`; the create branch
is commented out in the source. -/
def boat_get (store : List Boat) (boat_number : Int) (stadium : Stadium) :
    Option Boat :=
  (store.filter (fun b => b.boat_number = boat_number ∧ b.stadium = stadium)).head?

/-- `db/motor_top2finish_rate.py` row, as far as C4's "non-zero recorded
rate" hypothesis needs it: which motor, which rate. -/
structure MotorRateSnap where
  motor_id : Nat
  rate : ℚ
deriving DecidableEq

/-- `db/boat_top2finish_rate.py` row (same shape). -/
structure BoatRateSnap where
  boat_id : Nat
  rate : ℚ
deriving DecidableEq

/-! ## The result pipeline (`register_race_result_for_db`)

The function body is a single `for i, each_line in enumerate(result_content)`
loop over ad hoc boolean flags; it is embedded as `processResultLine` (one
loop iteration) driven by `runResultLines` (the loop), with the local
variables gathered in `ResultState`.  The early `return` on `"レース不成立"`
is the `finished` flag, which also skips the trailing persistence loop. -/

/-- The 79-dash `RESULT_SEPARATOR_LINE` (equal to `PARAM_SEPARATOR_LINE`). -/
def RESULT_SEPARATOR_LINE : Line :=
  List.replicate 79 '-'

/-- `each_race_results_dict` as populated by the parser.  Keys that are only
conditionally inserted and whose *presence* is later tested
(`boxed_quinella_refund2/3` via `not in ...keys()`, `place_refund1/2` via the
`EachRaceResult(**kwargs)` signature) are `Option (Option Int)`:
`none` = key absent, `some v` = key present with value `v` (itself `None` for
a void payout).  Keys always present after the header are plain fields. -/
structure RaceDict where
  date : Int
  stadium : Stadium
  race_index : Int
  race_name : Line
  special_rule : SpecialRule
  weather : Weather
  wind_direction : WindDirection
  wind_speed : Int
  wave_height : Int
  decisive_factor : DecisiveFactor
  win_refund : Option Int := none
  place_refund1 : Option (Option Int) := none
  place_refund2 : Option (Option Int) := none
  perfecta_refund : Option Int := none
  quinella_refund : Option Int := none
  boxed_quinella_refund1 : Option Int := none
  boxed_quinella_refund2 : Option (Option Int) := none
  boxed_quinella_refund3 : Option (Option Int) := none
  trifecta_refund : Option Int := none
  boxed_trifecta_refund : Option Int := none
deriving DecidableEq, Repr

/-- `db/each_race_results.py` `EachRaceResult` row (surrogate id omitted —
rows are only ever appended and read back in order). -/
structure EachRaceResult where
  stadium : Stadium
  date : Int
  race_index : Int
  race_name : Line
  special_rule : SpecialRule
  weather : Weather
  wind_direction : WindDirection
  wind_speed : Int
  wave_height : Int
  decisive_factor : DecisiveFactor
  win_refund : Option Int := none
  place_refund : Option Int := none
  perfecta_refund : Option Int := none
  quinella_refund : Option Int := none
  boxed_quinella_refund1 : Option Int := none
  boxed_quinella_refund2 : Option Int := none
  boxed_quinella_refund3 : Option Int := none
  trifecta_refund : Option Int := none
  boxed_trifecta_refund : Option Int := none
deriving DecidableEq, Repr

/-- The `EachRaceResult` row `EachRaceResult(**each_race_results_dict)`
builds from a parse dict whose keys the constructor accepts. -/
def raceRecordOf (d : RaceDict) : EachRaceResult :=
  { stadium := d.stadium
    date := d.date
    race_index := d.race_index
    race_name := d.race_name
    special_rule := d.special_rule
    weather := d.weather
    wind_direction := d.wind_direction
    wind_speed := d.wind_speed
    wave_height := d.wave_height
    decisive_factor := d.decisive_factor
    win_refund := d.win_refund
    perfecta_refund := d.perfecta_refund
    quinella_refund := d.quinella_refund
    boxed_quinella_refund1 := d.boxed_quinella_refund1
    boxed_quinella_refund2 := d.boxed_quinella_refund2.getD none
    boxed_quinella_refund3 := d.boxed_quinella_refund3.getD none
    trifecta_refund := d.trifecta_refund
    boxed_trifecta_refund := d.boxed_trifecta_refund }

/-- `db/each_race_results.py` `create_and_get`:
`EachRaceResult(**each_race_results_dict)`.  The constructor's keyword
parameters do not include `place_refund1`/`place_refund2` (it declares a
single `place_refund`, which the parser never sets), so a dict carrying
either key raises `TypeError`; otherwise the row is built, added and
committed. -/
def create_and_get (d : RaceDict) : Except PyErr EachRaceResult :=
  if d.place_refund1 ≠ none ∨ d.place_refund2 ≠ none then .error .typeError
  else .ok (raceRecordOf d)

/-- `dt.time(minute=, second=, microsecond=)`: constructor validation. -/
structure RaceTime where
  minute : Int
  second : Int
  microsecond : Int
deriving DecidableEq, Repr

/-- `dt.time` raises `ValueError` outside `0 ≤ minute/second ≤ 59`,
`0 ≤ microsecond ≤ 999999`. -/
def dtTime? (minute second microsecond : Int) : Option RaceTime :=
  if 0 ≤ minute ∧ minute ≤ 59 ∧ 0 ≤ second ∧ second ≤ 59 ∧
     0 ≤ microsecond ∧ microsecond ≤ 999999 then
    some ⟨minute, second, microsecond⟩
  else none

/-- `each_boat_data_dict` for one boat-result line. -/
structure BoatDict where
  order_of_arrival : Int
  boat_number : Int
  player : Option Player
  motor : Option Motor
  boat : Option Boat
  sample_time : Option Line
  starting_order : Option Int
  start_timing : Option Line
  race_time : Option RaceTime
deriving DecidableEq, Repr

/-- Lines 116–119 of `extract_records_data.py`: the `try/except` around
`int()` on the arrival-order slice, whose handler substitutes the sentinel
`99` for a failed parse. -/
def decodeArrivalOrder (line : Line) : Int :=
  match pyInt (remove_all_blank (pySlice line 0 4)) with
  | some v => v
  | none => 99

/-- Lines 115–147 of `extract_records_data.py`: decode one boat-result line.
The arrival-order parse is sentinel-protected (`decodeArrivalOrder`) and the
boat-number `int(...)` is unprotected (`ValueError`); then line 123 calls
`db.player.get`, which does not exist, so every line that gets past the
boat-number parse raises `AttributeError` here and the remainder — the
motor/boat lookups and the `try/except`-protected `sample_time`,
`starting_order`, `start_timing`, `race_time` fields — is dead code, kept
below in source order. -/
def decodeBoatRow (pStore : List Player) (mStore : List Motor)
    (bStore : List Boat) (stadium : Stadium) (line : Line) :
    Except PyErr BoatDict := do
  let order_of_arrival : Int := decodeArrivalOrder line
  let boat_number ← match pyInt (remove_all_blank (pySlice line 4 7)) with
    | some v => Except.ok v
    | none => Except.error PyErr.valueError
  let player ← db_player_get_callsite pStore
  let motor_number ← match pyInt (remove_all_blank (pySlice line 21 24)) with
    | some v => Except.ok v
    | none => Except.error PyErr.valueError
  let motor := motor_get mStore motor_number stadium
  let boat_id_number ← match pyInt (remove_all_blank (pySlice line 24 29)) with
    | some v => Except.ok v
    | none => Except.error PyErr.valueError
  let boat := boat_get bStore boat_id_number stadium
  let sample_time := pyFloatTok (remove_all_blank (pySlice line 29 35))
  let starting_order := pyInt (remove_all_blank (pySlice line 35 39))
  let start_timing := pyFloatTok (remove_all_blank (pySlice line 39 47))
  let race_time : Option RaceTime := do
    let m ← pyInt (pySlice line 47 53)
    let s ← pyInt (pySlice line 54 56)
    let t ← pyInt (pySlice line 57 58)
    dtTime? m s (t * 100000)
  .ok {
    order_of_arrival := order_of_arrival
    boat_number := boat_number
    player := player
    motor := motor
    boat := boat
    sample_time := sample_time
    starting_order := starting_order
    start_timing := start_timing
    race_time := race_time }

/-- Lift `int(...)` to the exception monad (`ValueError` on failure). -/
def pyIntE (s : Line) : Except PyErr Int :=
  match pyInt s with
  | some v => .ok v
  | none => .error .valueError

/-- Read a local variable that may not have been assigned yet
(`NameError` when it has not). -/
def localVar {α : Type} : Option α → Except PyErr α
  | some v => .ok v
  | none => .error .nameError

/-- `result_content[i-2]`-style lookback (`IndexError` when out of range). -/
def lookback (content : List Line) (i : Int) : Except PyErr Line :=
  match pyIndex content i with
  | some l => .ok l
  | none => .error .indexError

/-- Call site `db.weather.get_or_create(session, name)`
(`extract_records_data.py:77`): `db/weather.py` defines no function of that
name (it defines `get_or_create_weather`), so the attribute access raises
`AttributeError`. -/
def db_weather_get_or_create_callsite (_store : List Weather) (_name : Line) :
    Except PyErr (List Weather × Weather) := .error .attributeError

/-- Call site `db.wind_direction.get_or_create(session, name)`
(`extract_records_data.py:79`): `db/wind_direction.py` defines no function of
that name (it defines `get_or_create_wind_direction`), so the attribute
access raises `AttributeError`. -/
def db_wind_direction_get_or_create_callsite (_store : List WindDirection)
    (_name : Line) : Except PyErr (List WindDirection × WindDirection) :=
  .error .attributeError

/-- Lines 91–99 / 162–170: the refund amount of one payout line, shared by
the `単勝` branch and the refund-section branch.  (`if refund == "":` after
this is dead code — `refund` is an `int` or `None`, never `""` — and has no
effect.) -/
def refundValue (each_line : Line) : Except PyErr (Option Int) :=
  if strContains each_line "不成立".data then .ok none
  else if remove_all_blank (pySlice each_line 0 12) = [] then
    (pyIntE (remove_all_blank (pySlice each_line 23 32))).map some
  else
    (pyIntE (remove_all_blank (pySlice each_line 23 29))).map some

/-- The local variables of `register_race_result_for_db`, plus the backing
stores of the session it opens.  `finished` models the early `return`
executed on a `"レース不成立"` line. -/
structure ResultState where
  is_stadium : Bool := false
  is_refund_data : Bool := false
  is_each_result_info : Bool := false
  is_no_game : Bool := false
  finished : Bool := false
  stadium_id : Option Int := none
  stadium : Option Stadium := none
  each_race_results_dict : Option RaceDict := none
  each_boat_data_list : List BoatDict := []
  each_boat_result_list : List (EachRaceResult × List BoatDict) := []
  stadiumStore : List Stadium := []
  specialRuleStore : List SpecialRule := []
  weatherStore : List Weather := []
  windStore : List WindDirection := []
  decisiveFactorStore : List DecisiveFactor := []
  playerStore : List Player := []
  motorStore : List Motor := []
  boatStore : List Boat := []
deriving DecidableEq, Repr

/-- One iteration of the `for i, each_line in enumerate(result_content)` loop
of `register_race_result_for_db`, with the branches in source order
(lines 40, 45, 50, 56, 88, 105, 110, 152). -/
def processResultLine (date : Int) (content : List Line) (i : Nat)
    (each_line : Line) (st : ResultState) : Except PyErr ResultState := do
  -- line 40: `if "レース不成立" in each_line: ...; return`
  if strContains each_line "レース不成立".data then
    .ok { st with is_no_game := true, finished := true }
  -- line 45: `if "KBGN" in each_line`
  else if strContains each_line "KBGN".data then do
    let sid ← pyIntE (pySlice each_line 0 2)
    .ok { st with is_stadium := true, stadium_id := some sid }
  -- line 50: `if is_stadium`
  else if st.is_stadium then do
    let sid ← localVar st.stadium_id
    let stadium_name := remove_all_blank (pySlice each_line 0 3)
    let (store', s) ← stadium_get_or_create st.stadiumStore sid stadium_name
    .ok { st with stadium := some s, stadiumStore := store', is_stadium := false }
  -- line 56: `if RESULT_SEPARATOR_LINE in each_line`
  else if strContains each_line RESULT_SEPARATOR_LINE then do
    let stadium ← localVar st.stadium
    let race_meta_info_line ← lookback content ((i : Int) - 2)
    let decisive_factor_line ← lookback content ((i : Int) - 1)
    let race_index ← pyIntE (remove_all_blank (pySlice race_meta_info_line 0 4))
    let race_name := remove_all_blank (pySlice race_meta_info_line 12 20)
    let special_rule := remove_all_blank (pySlice race_meta_info_line 20 31)
    let special_rule_key := if special_rule = [] then none else some special_rule
    let (srStore', sr) ←
      special_rule_get_or_create st.specialRuleStore special_rule_key
    let H_index := pyFind (pySliceFrom race_meta_info_line 31) "H".data
    let race_meta_info_line := pySliceFrom race_meta_info_line (31 + H_index)
    let (wStore', weather) ← db_weather_get_or_create_callsite st.weatherStore
      (remove_all_blank (pySlice race_meta_info_line 8 11))
    let (wdStore', wind_direction) ← db_wind_direction_get_or_create_callsite
      st.windStore (remove_all_blank (pySlice race_meta_info_line 15 17))
    let wind_speed ← pyIntE (remove_all_blank (pySlice race_meta_info_line 17 20))
    let wave_height ← pyIntE (remove_all_blank (pySlice race_meta_info_line 24 28))
    let (dfStore', decisive_factor) ← decisive_factor_get_or_create
      st.decisiveFactorStore (remove_all_blank (pySliceFrom decisive_factor_line 49))
    let d : RaceDict := {
      date := date, stadium := stadium, race_index := race_index,
      race_name := race_name, special_rule := sr, weather := weather,
      wind_direction := wind_direction, wind_speed := wind_speed,
      wave_height := wave_height, decisive_factor := decisive_factor }
    .ok { st with
      each_boat_data_list := [], each_race_results_dict := some d,
      specialRuleStore := srStore', weatherStore := wStore',
      windStore := wdStore', decisiveFactorStore := dfStore',
      is_each_result_info := true }
  -- line 88: `if "単勝" in each_line`
  else if strContains each_line "単勝".data then do
    let refund ← refundValue each_line
    let d ← localVar st.each_race_results_dict
    .ok { st with
      is_refund_data := true,
      each_race_results_dict := some { d with win_refund := refund } }
  -- line 105: `if "KEND" in each_line`
  else if strContains each_line "KEND".data then
    .ok { st with is_stadium := false, is_each_result_info := false }
  -- line 110: `if is_each_result_info`
  else if st.is_each_result_info then
    if each_line = "\n".data then
      .ok { st with is_each_result_info := false }
    else do
      let stadium ← localVar st.stadium
      let row ← decodeBoatRow st.playerStore st.motorStore st.boatStore
        stadium each_line
      .ok { st with each_boat_data_list := st.each_boat_data_list ++ [row] }
  -- line 152: `if is_refund_data`
  else if st.is_refund_data then
    if each_line = "\n".data then do
      -- `is_no_game` is necessarily still false here (setting it returns
      -- immediately), but the source re-tests it, so the test is kept.
      if st.is_no_game then
        .ok { st with is_refund_data := false }
      else do
        let d ← localVar st.each_race_results_dict
        let each_race ← create_and_get d
        .ok { st with
          is_refund_data := false,
          each_boat_result_list :=
            st.each_boat_result_list ++ [(each_race, st.each_boat_data_list)] }
    else do
      let refund ← refundValue each_line
      let d ← localVar st.each_race_results_dict
      let label := remove_all_blank (pySlice each_line 0 12)
      let d' : RaceDict ←
        if label = "複勝".data then
          let d₁ := { d with place_refund1 := some refund }
          match pyInt (remove_all_blank (pySliceFrom each_line 33)) with
          | some v => pure { d₁ with place_refund2 := some (some v) }
          | none => pure d₁
        else if label = "２連単".data then
          pure { d with perfecta_refund := refund }
        else if label = "２連複".data then
          pure { d with quinella_refund := refund }
        else if label = "拡連複".data then
          pure { d with boxed_quinella_refund1 := refund }
        else if label = "３連単".data then
          pure { d with trifecta_refund := refund }
        else if label = "３連複".data then
          pure { d with boxed_trifecta_refund := refund }
        else if d.boxed_quinella_refund2 = none then
          pure { d with boxed_quinella_refund2 := some refund }
        else if d.boxed_quinella_refund3 = none then
          pure { d with boxed_quinella_refund3 := some refund }
        else
          pure d
      .ok { st with each_race_results_dict := some d' }
  else
    .ok st

/-- The loop of `register_race_result_for_db`; stops early when a line set
`finished` (the `return` at line 43). -/
def runResultLines (date : Int) (content : List Line) :
    Nat → List Line → ResultState → Except PyErr ResultState
  | _, [], st => .ok st
  | i, l :: rest, st => do
      let st' ← processResultLine date content i l st
      if st'.finished then .ok st'
      else runResultLines date content (i + 1) rest st'

/-- What `register_race_result_for_db` leaves behind: the race rows created
by `create_and_get` (committed at creation time) and the per-boat rows added
by the trailing loop (lines 196–202, skipped entirely by the early
`return`). -/
structure ResultOutput where
  races : List EachRaceResult
  boatRows : List (EachRaceResult × BoatDict)
deriving DecidableEq, Repr

/-- `register_race_result_for_db(date, result_content)` starting from the
session state `init` (the pre-existing database contents). -/
def register_race_result_for_db (date : Int) (result_content : List Line)
    (init : ResultState) : Except PyErr ResultOutput := do
  let st ← runResultLines date result_content 0 result_content init
  if st.finished then
    .ok ⟨st.each_boat_result_list.map Prod.fst, []⟩
  else
    .ok ⟨st.each_boat_result_list.map Prod.fst,
      (st.each_boat_result_list.map
        (fun p => p.2.map (fun b => (p.1, b)))).flatten⟩

/-- `runResultLines` started at the head of a content list from a given
session/loop state. -/
def runResultFrom (date : Int) (content : List Line) (st : ResultState) :
    Except PyErr ResultState :=
  runResultLines date content 0 content st

/-! ## Concrete fixtures -/

/-- Stadium 01, 徳山 (a `branch_dict` key). -/
def stadiumT : Stadium := ⟨1, "徳山".data⟩

/-- A well-formed result-block prefix up to the first race separator:
opening tag, stadium-name line, race-meta line (race 1, no special rule,
`H1800m` marker), decisive-factor line, 79-dash separator. -/
def wfBlock : List Line :=
  ["01KBGN\n".data,
   "徳山 成績\n".data,
   ("   1R  予選" ++ String.mk (List.replicate 22 ' ') ++ "H1800m\n").data,
   "  決まり手  逃げ\n".data,
   (String.mk RESULT_SEPARATOR_LINE ++ "\n").data]

/-- A boxed-quinella (拡連複) label line paying 1040. -/
def bqLabelLine : Line :=
  ("   拡連複      " ++ " 1=2       " ++ "  1040" ++ "\n").data

/-- An unlabeled continuation payout line paying 980. -/
def bqContLine1 : Line :=
  (String.mk (List.replicate 12 ' ') ++ " 2=3       " ++ "     980 " ++ "\n").data

/-- An unlabeled continuation payout line paying 1300. -/
def bqContLine2 : Line :=
  (String.mk (List.replicate 12 ' ') ++ " 1=3       " ++ "    1300 " ++ "\n").data

/-- A boat-result line that is well-formed except that the boat-number slice
(columns 4–7) holds `" X "`, which `int()` rejects. -/
def c5Line : Line :=
  ("   1" ++ " X " ++ " " ++ "3960" ++ "         " ++ " 12" ++ "   34" ++
   "  6.78" ++ "   1" ++ "    0.12" ++ "     1" ++ " " ++ "50" ++ " " ++ "8" ++
   "\n").data

/-- A boat-result line whose `try/except`-protected slices (exhibition time,
starting order, start timing, race time) are all unparsable while the
unprotected integer slices parse. -/
def c5GoodLine : Line :=
  ("   1" ++ " 1 " ++ " " ++ "3960" ++ "         " ++ " 12" ++ "   34" ++
   "  F.  " ++ "  K " ++ "   L    " ++ "     ." ++ " " ++ "50" ++ " " ++ "8" ++
   "\n").data

/-- A boat-result line whose arrival-order slice (columns 0–4) holds a
disqualification marker `"  F "`, with everything else numeric. -/
def c8Line : Line :=
  ("  F " ++ " 2 " ++ " " ++ "3960" ++ "         " ++ " 12" ++ "   34" ++
   "  6.78" ++ "   1" ++ "    0.12" ++ "     1" ++ " " ++ "50" ++ " " ++ "8" ++
   "\n").data

/-- A fully well-formed boat-result line (numeric arrival order 4, boat 3,
player 4321, motor 56, boat 78) for the lookup-only claim. -/
def c10Line : Line :=
  ("   4" ++ " 3 " ++ " " ++ "4321" ++ "         " ++ " 56" ++ "   78" ++
   "  6.78" ++ "   1" ++ "    0.12" ++ "     1" ++ " " ++ "50" ++ " " ++ "8" ++
   "\n").data

/-- A fully-populated race-header dict (as it stands after a race separator
has been decoded), with no refund keys yet. -/
def dT : RaceDict :=
  { date := 0, stadium := stadiumT, race_index := 1, race_name := [],
    special_rule := ⟨0, none⟩, weather := ⟨0, "晴".data⟩,
    wind_direction := ⟨0, "北".data⟩, wind_speed := 2, wave_height := 3,
    decisive_factor := ⟨0, "逃げ".data⟩ }

/-- A boat row carrying only a boat number (for counting/duplication tests). -/
def rowT (n : Int) : BoatDict :=
  { order_of_arrival := n, boat_number := n, player := none, motor := none,
    boat := none, sample_time := none, starting_order := none,
    start_timing := none, race_time := none }

/-- A result file whose first block is voided (`レース不成立`) and is followed
by a further, well-formed block prefix. -/
def c2File : List Line :=
  ["01KBGN\n".data, "徳山 成績\n".data,
   "レース不成立のため中止\n".data] ++ wfBlock

/-- A result file whose opening tag `01KBGN` has no closing tag at all. -/
def unterminatedFile : List Line := ["01KBGN\n".data, "徳山 成績\n".data]

/-- A mid-race state: refund section open for race `dT`, with five
accumulated boat rows two of which share boat number 4. -/
def st5boats : ResultState :=
  { is_refund_data := true, each_race_results_dict := some dT,
    each_boat_data_list := [rowT 1, rowT 2, rowT 3, rowT 4, rowT 4] }

/-! ## Claim-level predicates -/

/-- A refund-section payout line reaches the `is_refund_data` branch
(lines 152–194): it trips none of the earlier substring dispatches and is
not the blank terminator.  (`"レース不成立"` containment is listed although it
follows from `"不成立"` containment, to keep each branch condition visible.) -/
def NotSpecialResultLine (l : Line) : Prop :=
  strContains l "レース不成立".data = false ∧
  strContains l "不成立".data = false ∧
  strContains l "KBGN".data = false ∧
  strContains l RESULT_SEPARATOR_LINE = false ∧
  strContains l "単勝".data = false ∧
  strContains l "KEND".data = false ∧
  l ≠ "\n".data

/-- A 拡連複 label line paying `amount`: label slice (columns 0–12) reads
`拡連複`, payout parsed from columns 23–29. -/
def IsBoxedQuinellaLabelLine (l : Line) (amount : Int) : Prop :=
  NotSpecialResultLine l ∧
  remove_all_blank (pySlice l 0 12) = "拡連複".data ∧
  pyInt (remove_all_blank (pySlice l 23 29)) = some amount

/-- An unlabeled continuation payout line paying `amount`: empty label slice,
payout parsed from columns 23–32, matching no known category label. -/
def IsUnlabeledRefundLine (l : Line) (amount : Int) : Prop :=
  NotSpecialResultLine l ∧
  remove_all_blank (pySlice l 0 12) = [] ∧
  pyInt (remove_all_blank (pySlice l 23 32)) = some amount

instance (l : Line) : Decidable (NotSpecialResultLine l) := by
  unfold NotSpecialResultLine; infer_instance

instance (l : Line) (a : Int) : Decidable (IsBoxedQuinellaLabelLine l a) := by
  unfold IsBoxedQuinellaLabelLine; infer_instance

instance (l : Line) (a : Int) : Decidable (IsUnlabeledRefundLine l a) := by
  unfold IsUnlabeledRefundLine; infer_instance

/-! ## Helper lemmas -/

theorem filter_eq_nil_of_forall {α : Type} (p : α → Bool) (l : List α)
    (h : ∀ a ∈ l, p a = false) : l.filter p = [] := by
  induction l with
  | nil => rfl
  | cons a t ih =>
      have ha := h a (List.mem_cons_self a t)
      simp [List.filter_cons, ha,
        ih (fun x hx => h x (List.mem_cons_of_mem a hx))]

theorem exceptBindOk {ε α β : Type} (a : α) (f : α → Except ε β) :
    (Except.ok a >>= f) = f a := rfl

theorem exceptBindErr {ε α β : Type} (e : ε) (f : α → Except ε β) :
    ((Except.error e : Except ε α) >>= f) = .error e := rfl

theorem exceptPureEq {ε α : Type} (a : α) :
    (pure a : Except ε α) = .ok a := rfl

theorem exceptMapOk {ε α β : Type} (f : α → β) (a : α) :
    Except.map f (Except.ok a : Except ε α) = .ok (f a) := rfl

theorem exceptMapErr {ε α β : Type} (f : α → β) (e : ε) :
    Except.map f (Except.error e : Except ε α) = (.error e : Except ε β) := rfl

theorem remove_all_blank_eq_filter (s : Line) :
    remove_all_blank s = s.filter (fun c => decide (c ≠ ' ' ∧ c ≠ '　')) := by
  unfold remove_all_blank
  simp only [List.filter_filter]
  apply List.filter_congr
  intro a _
  by_cases h1 : a = ' ' <;> by_cases h2 : a = '　' <;> simp [h1, h2]

/-! ## Claims -/

/-- C9: for every string `s`, `remove_all_blank s` equals `s` with every
occurrence of the ASCII space U+0020 and the ideographic space U+3000
removed — interior occurrences included — with all other characters
preserved in order (the result is the corresponding filter, hence a sublist
of `s`), and every output of `remove_all_blank` is free of both space
characters. -/
theorem C9_remove_all_blank_removes_all_spaces (s : Line) :
    remove_all_blank s = s.filter (fun c => decide (c ≠ ' ' ∧ c ≠ '　')) ∧
    (∀ c ∈ remove_all_blank s, c ≠ ' ' ∧ c ≠ '　') ∧
    List.Sublist (remove_all_blank s) s := by
  refine ⟨remove_all_blank_eq_filter s, ?_, ?_⟩
  · intro c hc
    rw [remove_all_blank_eq_filter] at hc
    simpa using (List.mem_filter.mp hc).2
  · rw [remove_all_blank_eq_filter]
    exact List.filter_sublist s

/-- C3: the claim asserts idempotent resolution for every dimension kind,
but the weather and wind-direction resolvers never return at all: their
queries pass the natural key to `Query.filter_by` positionally
(`filter_by(weather_name)`, `filter_by(wind_direction_name)`), which raises
`TypeError` on every call, for every store and key. -/
theorem C3_weather_wind_resolvers_always_raise :
    (∀ (store : List Weather) (name : Line),
      get_or_create_weather store name = .error .typeError) ∧
    (∀ (store : List WindDirection) (name : Line),
      get_or_create_wind_direction store name = .error .typeError) :=
  ⟨fun _ _ => rfl, fun _ _ => rfl⟩

/-- C4: motor/boat identity is scoped by `(number, stadium)`; when a prior
entity exists for that key (and a non-zero rate is on record for it), the
resolver returns the existing entity for a non-zero caller-supplied rate and
creates and returns a fresh row exactly when the caller supplies a rate of
`0`. -/
theorem C4_motor_boat_get_or_create_rate_zero (mS : List Motor)
    (bS : List Boat) (mSnaps : List MotorRateSnap) (bSnaps : List BoatRateSnap)
    (m : Motor) (b : Boat) (n nb : Int) (stdm : Stadium) (rate : ℚ)
    (hm : motor_get mS n stdm = some m)
    (hmr : ∃ s ∈ mSnaps, s.motor_id = m.id ∧ s.rate ≠ 0)
    (hb : boat_get bS nb stdm = some b)
    (hbr : ∃ s ∈ bSnaps, s.boat_id = b.id ∧ s.rate ≠ 0) :
    (rate ≠ 0 →
      motor_get_or_create mS n stdm rate = (mS, m) ∧
      boat_get_or_create bS nb stdm rate = (bS, b)) ∧
    (rate = 0 →
      motor_get_or_create mS n stdm rate =
        (mS ++ [⟨mS.length, n, stdm⟩], ⟨mS.length, n, stdm⟩) ∧
      boat_get_or_create bS nb stdm rate =
        (bS ++ [⟨bS.length, nb, stdm⟩], ⟨bS.length, nb, stdm⟩)) := by
  unfold motor_get at hm
  unfold boat_get at hb
  constructor
  · intro hr
    constructor
    · unfold motor_get_or_create
      rw [hm]
      simp [hr]
    · unfold boat_get_or_create
      rw [hb]
      simp [hr]
  · intro hr
    subst hr
    constructor
    · unfold motor_get_or_create
      rw [hm]
      simp
    · unfold boat_get_or_create
      rw [hb]
      simp

/-- Witness for C4 at a concrete one-row store: supplying rate `0` creates a
fresh row even though `(12, 徳山)` resp. `(34, 徳山)` already exist. -/
theorem C4_motor_boat_get_or_create_rate_zero_attest :
    motor_get_or_create [⟨0, 12, stadiumT⟩] 12 stadiumT 0 =
      ([⟨0, 12, stadiumT⟩, ⟨1, 12, stadiumT⟩], ⟨1, 12, stadiumT⟩) ∧
    boat_get_or_create [⟨0, 34, stadiumT⟩] 34 stadiumT 0 =
      ([⟨0, 34, stadiumT⟩, ⟨1, 34, stadiumT⟩], ⟨1, 34, stadiumT⟩) :=
  (C4_motor_boat_get_or_create_rate_zero [⟨0, 12, stadiumT⟩] [⟨0, 34, stadiumT⟩]
    [⟨0, 1⟩] [⟨0, 1⟩] ⟨0, 12, stadiumT⟩ ⟨0, 34, stadiumT⟩ 12 34 stadiumT 0
    (by decide) ⟨⟨0, 1⟩, by decide, rfl, by norm_num⟩
    (by decide) ⟨⟨0, 1⟩, by decide, rfl, by norm_num⟩).2 rfl

/-- C8 counterexample: the concrete boat-result line with `"  F "` in its
arrival-order slice (and every other field numeric) does not decode to a row
carrying the sentinel 99 — the decoder raises `AttributeError` at the
`db.player.get` call site, so no row is produced at all. -/
theorem C8_cex_decode_raises_before_row :
    decodeBoatRow [] [] [] stadiumT c8Line = .error .attributeError := by
  decide

/-- C8 amended: the arrival-order decode (lines 116–120) does replace a
non-numeric slice by the sentinel `99` — an `Int`, never `None` and never a
valid place 1–6 — but no boat row carrying the sentinel is ever emitted: any
line whose boat-number slice parses then raises `AttributeError` at the
nonexistent `db.player.get` before the row is finished. -/
theorem C8_arrival_sentinel_but_row_never_emitted (line : Line) (bn : Int)
    (h0 : pyInt (remove_all_blank (pySlice line 0 4)) = none)
    (hbn : pyInt (remove_all_blank (pySlice line 4 7)) = some bn) :
    decodeArrivalOrder line = 99 ∧
    ¬(1 ≤ decodeArrivalOrder line ∧ decodeArrivalOrder line ≤ 6) ∧
    ∀ (pS : List Player) (mS : List Motor) (bS : List Boat) (stdm : Stadium),
      decodeBoatRow pS mS bS stdm line = .error .attributeError := by
  have hs : decodeArrivalOrder line = 99 := by
    simp [decodeArrivalOrder, h0]
  refine ⟨hs, ?_, ?_⟩
  · rw [hs]
    decide
  · intro pS mS bS stdm
    simp only [decodeBoatRow, hbn, db_player_get_callsite,
      exceptBindOk, exceptBindErr, exceptPureEq]

/-- Witness for C8's amended statement on the concrete `"  F "` line. -/
theorem C8_arrival_sentinel_but_row_never_emitted_attest :
    decodeArrivalOrder c8Line = 99 ∧
    ¬(1 ≤ decodeArrivalOrder c8Line ∧ decodeArrivalOrder c8Line ≤ 6) ∧
    decodeBoatRow [] [] [] stadiumT c8Line = .error .attributeError :=
  ⟨(C8_arrival_sentinel_but_row_never_emitted c8Line 2 (by decide)
      (by decide)).1,
   (C8_arrival_sentinel_but_row_never_emitted c8Line 2 (by decide)
      (by decide)).2.1,
   (C8_arrival_sentinel_but_row_never_emitted c8Line 2 (by decide)
      (by decide)).2.2 [] [] [] stadiumT⟩

/-- C5 counterexample: a boat-result line that is well-formed except for its
boat-number slice (`" X "`, one corrupt numeric field) makes the decoder
raise `ValueError` — the row is lost, not emitted with a `None` field. -/
theorem C5_cex_corrupt_boat_number_raises :
    decodeBoatRow [] [] [] stadiumT c5Line = .error .valueError := by
  decide

/-- C5 amended: no boat-result row is ever emitted, with or without a
corrupt field.  A boat-number slice that fails to parse raises `ValueError`
(the counterexample); any line whose boat-number slice parses instead raises
`AttributeError` at the nonexistent `db.player.get` before the
`try/except`-protected fields (`sample_time`, `starting_order`,
`start_timing`, `race_time`) are even reached — their `None`-protection is
dead code. -/
theorem C5_decode_never_emits_row (pS : List Player) (mS : List Motor)
    (bS : List Boat) (stdm : Stadium) (line : Line) :
    (pyInt (remove_all_blank (pySlice line 4 7)) = none →
      decodeBoatRow pS mS bS stdm line = .error .valueError) ∧
    (∀ bn : Int, pyInt (remove_all_blank (pySlice line 4 7)) = some bn →
      decodeBoatRow pS mS bS stdm line = .error .attributeError) := by
  constructor
  · intro h
    simp only [decodeBoatRow, h, db_player_get_callsite,
      exceptBindOk, exceptBindErr, exceptPureEq]
  · intro bn h
    simp only [decodeBoatRow, h, db_player_get_callsite,
      exceptBindOk, exceptBindErr, exceptPureEq]

/-- Witness for C5's amended statement: the line whose four protected slices
are all unparsable — but whose boat number parses — still raises at the
`db.player.get` call site rather than being emitted with `None` fields. -/
theorem C5_decode_never_emits_row_attest :
    decodeBoatRow [] [] [] stadiumT c5GoodLine = .error .attributeError :=
  (C5_decode_never_emits_row [] [] [] stadiumT c5GoodLine).2 1 (by decide)

/-- C10 counterexample: with empty stores, `db.motor.get` and `db.boat.get`
return `none` for the concrete line's `(number, stadium)` keys without
creating or raising — but the boat row is *not* built: the decode raises
`AttributeError` at the nonexistent `db.player.get`, which Python resolves
before the motor and boat lookups at lines 124–125 ever run. -/
theorem C10_cex_row_never_built :
    motor_get [] 56 stadiumT = none ∧
    boat_get [] 78 stadiumT = none ∧
    decodeBoatRow [] [] [] stadiumT c10Line = .error .attributeError := by
  decide

/-- C10 amended: `db.motor.get` and `db.boat.get` are lookup-only — for a
`(number, stadium)` key with no existing row they return `none` (their
create branches are commented out, so the stores are untouched) and raise
nothing — but no boat row is ever built or persisted carrying those null
references: every line whose boat-number slice parses raises
`AttributeError` at the `db.player.get` call site first. -/
theorem C10_motor_boat_lookup_only_row_never_built (mS : List Motor)
    (bS : List Boat) (n nb : Int) (stdm : Stadium)
    (hm : ∀ m ∈ mS, ¬(m.motor_number = n ∧ m.stadium = stdm))
    (hb : ∀ b ∈ bS, ¬(b.boat_number = nb ∧ b.stadium = stdm)) :
    motor_get mS n stdm = none ∧
    boat_get bS nb stdm = none ∧
    ∀ (pS : List Player) (line : Line) (bn : Int),
      pyInt (remove_all_blank (pySlice line 4 7)) = some bn →
      decodeBoatRow pS mS bS stdm line = .error .attributeError := by
  have hmg : motor_get mS n stdm = none := by
    unfold motor_get
    rw [filter_eq_nil_of_forall _ _ (fun a ha => decide_eq_false (hm a ha))]
    rfl
  have hbg : boat_get bS nb stdm = none := by
    unfold boat_get
    rw [filter_eq_nil_of_forall _ _ (fun a ha => decide_eq_false (hb a ha))]
    rfl
  refine ⟨hmg, hbg, ?_⟩
  intro pS line bn hbn
  simp only [decodeBoatRow, hbn, db_player_get_callsite,
    exceptBindOk, exceptBindErr, exceptPureEq]

/-- Witness for C10's amended statement against empty stores and a second
concrete line. -/
theorem C10_motor_boat_lookup_only_row_never_built_attest :
    motor_get [] 12 stadiumT = none ∧
    boat_get [] 34 stadiumT = none ∧
    decodeBoatRow [] [] [] stadiumT c5GoodLine = .error .attributeError :=
  ⟨(C10_motor_boat_lookup_only_row_never_built [] [] 12 34 stadiumT
      (by simp) (by simp)).1,
   (C10_motor_boat_lookup_only_row_never_built [] [] 12 34 stadiumT
      (by simp) (by simp)).2.1,
   (C10_motor_boat_lookup_only_row_never_built [] [] 12 34 stadiumT
      (by simp) (by simp)).2.2 [] c5GoodLine 1 (by decide)⟩

/-- C1 counterexample: (a) on a well-formed block the parser emits no race
record at all — decoding the race header raises (`db.weather.get_or_create`
does not exist); (b) a completed race span whose accumulated boat rows
number five and contain a duplicate boat number is emitted anyway, with
exactly those five rows — it is not rejected. -/
theorem C1_cex_no_six_boat_validation :
    register_race_result_for_db 0 wfBlock {} = .error .attributeError ∧
    (register_race_result_for_db 0 ["\n".data] st5boats).map
      (fun o => (o.races.length, o.boatRows.map (fun p => p.2.boat_number)))
      = .ok (1, [1, 2, 3, 4, 4]) := by decide

/-- C1 amended: the blank line closing a refund section emits exactly one
race record carrying *whatever* boat rows were accumulated — any count,
duplicates included; no boat-count or boat-number-set validation exists
anywhere in the parser (and from the start of a file no race is ever
emitted, the header decoding raising first). -/
theorem C1_blank_emits_accumulated_rows (date : Int) (d : RaceDict)
    (bs : List BoatDict)
    (h1 : d.place_refund1 = none) (h2 : d.place_refund2 = none) :
    register_race_result_for_db date ["\n".data]
      { is_refund_data := true, each_race_results_dict := some d,
        each_boat_data_list := bs }
      = .ok ⟨[raceRecordOf d], bs.map (fun b => (raceRecordOf d, b))⟩ := by
  have e1 : strContains "\n".data "レース不成立".data = false := by decide
  have e2 : strContains "\n".data "KBGN".data = false := by decide
  have e3 : strContains "\n".data RESULT_SEPARATOR_LINE = false := by decide
  have e4 : strContains "\n".data "単勝".data = false := by decide
  have e5 : strContains "\n".data "KEND".data = false := by decide
  simp [register_race_result_for_db, runResultLines, processResultLine,
    e1, e2, e3, e4, e5, localVar, create_and_get, h1, h2,
    exceptBindOk, exceptBindErr, exceptPureEq]

/-- Witness for C1's amended statement at the five-row duplicate state. -/
theorem C1_blank_emits_accumulated_rows_attest :
    register_race_result_for_db 0 ["\n".data]
      { is_refund_data := true, each_race_results_dict := some dT,
        each_boat_data_list := [rowT 1, rowT 2, rowT 3, rowT 4, rowT 4] }
      = .ok ⟨[raceRecordOf dT],
        [rowT 1, rowT 2, rowT 3, rowT 4, rowT 4].map
          (fun b => (raceRecordOf dT, b))⟩ :=
  C1_blank_emits_accumulated_rows 0 dT
    [rowT 1, rowT 2, rowT 3, rowT 4, rowT 4] rfl rfl

/-- C2 counterexample: a file whose first block hits `レース不成立` before any
race, followed by a further block, produces zero races and zero boat rows
for the *whole file* — the later block's races are not parsed, not emitted
and not persisted (and no voided-race counter exists anywhere in the
function; it only prints a message). -/
theorem C2_cex_other_blocks_not_parsed :
    register_race_result_for_db 0 c2File {} = .ok ⟨[], []⟩ := by decide

/-- C2 amended: the first line containing `レース不成立` makes
`register_race_result_for_db` return immediately: the remaining lines of the
file — the rest of the block and every later block — are never processed,
and the trailing boat-row persistence loop is skipped. -/
theorem C2_no_game_returns_immediately (date : Int) (content : List Line)
    (i : Nat) (l : Line) (rest : List Line) (st : ResultState)
    (h : strContains l "レース不成立".data = true) :
    runResultLines date content i (l :: rest) st =
      .ok { st with is_no_game := true, finished := true } := by
  simp only [runResultLines, processResultLine, h]
  rfl

/-- Witness for C2's amended statement on a one-line voided file. -/
theorem C2_no_game_returns_immediately_attest :
    runResultLines 0 ["レース不成立\n".data] 0 ["レース不成立\n".data] {} =
      .ok { is_no_game := true, finished := true } :=
  C2_no_game_returns_immediately 0 ["レース不成立\n".data] 0
    "レース不成立\n".data [] {} (by decide)

/-- C7 counterexample: a file whose `01KBGN` opening tag has no matching
close runs to end-of-input and completes normally (`ok`) — there is no
`UnterminatedBlock` failure and the file is not rejected. -/
theorem C7_cex_unterminated_open_not_rejected :
    register_race_result_for_db 0 unterminatedFile {} = .ok ⟨[], []⟩ := by
  decide

/-- C7 amended: the parser has no open/close pairing at all — a `KEND` line
with a *different* stadium code (`99` against the opened `01`-less state)
still ends the boat-result section (the subsequent malformed boat line is
ignored instead of decoded), whereas without that `KEND` the same line is
decoded and raises; and an unterminated opening tag causes no error. -/
theorem C7_kend_closes_regardless_of_code :
    runResultFrom 0 ["99KEND\n".data, c5Line]
      { is_each_result_info := true, stadium := some stadiumT } =
      .ok { is_each_result_info := false, stadium := some stadiumT } ∧
    runResultFrom 0 [c5Line]
      { is_each_result_info := true, stadium := some stadiumT } =
      .error .valueError := by decide

/-- C6: boxed-quinella accumulation round-trips.  Over a refund section whose
dict has no boxed-quinella or place keys yet, a 拡連複 label line followed by
`k-1` unlabeled continuation lines (`k ∈ {1,2,3}`) and the blank terminator
emits exactly one record whose `boxed_quinella_refund1..k` hold the `k`
payouts in line order and whose remaining boxed-quinella slots are `None`;
continuation lines are consumed only while they match no other known label
and are not the blank terminator (the `IsUnlabeledRefundLine` hypothesis). -/
theorem C6_boxed_quinella_roundtrip (d : RaceDict) (l c1 c2 : Line)
    (a1 a2 a3 : Int)
    (hd2 : d.boxed_quinella_refund2 = none)
    (hd3 : d.boxed_quinella_refund3 = none)
    (hp1 : d.place_refund1 = none) (hp2 : d.place_refund2 = none)
    (hl : IsBoxedQuinellaLabelLine l a1)
    (hc1 : IsUnlabeledRefundLine c1 a2)
    (hc2 : IsUnlabeledRefundLine c2 a3) :
    ((runResultFrom 0 [l, "\n".data]
        { is_refund_data := true, each_race_results_dict := some d }).map
      (fun st => st.each_boat_result_list.map (fun p =>
        (p.1.boxed_quinella_refund1, p.1.boxed_quinella_refund2,
         p.1.boxed_quinella_refund3)))
      = .ok [(some a1, none, none)]) ∧
    ((runResultFrom 0 [l, c1, "\n".data]
        { is_refund_data := true, each_race_results_dict := some d }).map
      (fun st => st.each_boat_result_list.map (fun p =>
        (p.1.boxed_quinella_refund1, p.1.boxed_quinella_refund2,
         p.1.boxed_quinella_refund3)))
      = .ok [(some a1, some a2, none)]) ∧
    ((runResultFrom 0 [l, c1, c2, "\n".data]
        { is_refund_data := true, each_race_results_dict := some d }).map
      (fun st => st.each_boat_result_list.map (fun p =>
        (p.1.boxed_quinella_refund1, p.1.boxed_quinella_refund2,
         p.1.boxed_quinella_refund3)))
      = .ok [(some a1, some a2, some a3)]) := by
  obtain ⟨⟨g1, g2, g3, g4, g5, g6, g7⟩, gl, ga⟩ := hl
  obtain ⟨⟨u1, u2, u3, u4, u5, u6, u7⟩, ul, ua⟩ := hc1
  obtain ⟨⟨v1, v2, v3, v4, v5, v6, v7⟩, vl, va⟩ := hc2
  have e1 : strContains "\n".data "レース不成立".data = false := by decide
  have e2 : strContains "\n".data "KBGN".data = false := by decide
  have e3 : strContains "\n".data RESULT_SEPARATOR_LINE = false := by decide
  have e4 : strContains "\n".data "単勝".data = false := by decide
  have e5 : strContains "\n".data "KEND".data = false := by decide
  have nA1 : "拡連複".data ≠ "複勝".data := by decide
  have nA2 : "拡連複".data ≠ "２連単".data := by decide
  have nA3 : "拡連複".data ≠ "２連複".data := by decide
  have nB1 : ([] : Line) ≠ "複勝".data := by decide
  have nB2 : ([] : Line) ≠ "２連単".data := by decide
  have nB3 : ([] : Line) ≠ "２連複".data := by decide
  have nB4 : ([] : Line) ≠ "拡連複".data := by decide
  have nB5 : ([] : Line) ≠ "３連単".data := by decide
  have nB6 : ([] : Line) ≠ "３連複".data := by decide
  refine ⟨?_, ?_, ?_⟩ <;>
    simp [runResultFrom, runResultLines, processResultLine, refundValue,
      pyIntE, g1, g2, g3, g4, g5, g6, g7, gl, ga,
      u1, u2, u3, u4, u5, u6, u7, ul, ua,
      v1, v2, v3, v4, v5, v6, v7, vl, va,
      hd2, hd3, hp1, hp2, e1, e2, e3, e4, e5,
      nA1, nA2, nA3, nB1, nB2, nB3, nB4, nB5, nB6,
      localVar, create_and_get, raceRecordOf,
      exceptBindOk, exceptBindErr, exceptPureEq, exceptMapOk, exceptMapErr]

/-- Witness for C6 on concrete payout lines (1040 / 980 / 1300). -/
theorem C6_boxed_quinella_roundtrip_attest :
    ((runResultFrom 0 [bqLabelLine, "\n".data]
        { is_refund_data := true, each_race_results_dict := some dT }).map
      (fun st => st.each_boat_result_list.map (fun p =>
        (p.1.boxed_quinella_refund1, p.1.boxed_quinella_refund2,
         p.1.boxed_quinella_refund3)))
      = .ok [(some 1040, none, none)]) ∧
    ((runResultFrom 0 [bqLabelLine, bqContLine1, "\n".data]
        { is_refund_data := true, each_race_results_dict := some dT }).map
      (fun st => st.each_boat_result_list.map (fun p =>
        (p.1.boxed_quinella_refund1, p.1.boxed_quinella_refund2,
         p.1.boxed_quinella_refund3)))
      = .ok [(some 1040, some 980, none)]) ∧
    ((runResultFrom 0 [bqLabelLine, bqContLine1, bqContLine2, "\n".data]
        { is_refund_data := true, each_race_results_dict := some dT }).map
      (fun st => st.each_boat_result_list.map (fun p =>
        (p.1.boxed_quinella_refund1, p.1.boxed_quinella_refund2,
         p.1.boxed_quinella_refund3)))
      = .ok [(some 1040, some 980, some 1300)]) :=
  C6_boxed_quinella_roundtrip dT bqLabelLine bqContLine1 bqContLine2
    1040 980 1300 rfl rfl rfl rfl (by decide) (by decide) (by decide)
